import Mathlib

/-!
Verification of the presidio-research data-objects core
(`presidio_evaluator/data_objects.py` and
`presidio_evaluator/models/spacy_model.py`) against its
natural-language specification.

Python machine-free semantics are embedded shallowly:
* Python `int` is `Int`; Python `str` is `String` (a packed `List Char`,
  indexed per code point exactly as Python indexes strings);
* Python `dict` arguments are association lists `List (String × String)`
  queried with `List.lookup` (first match, matching a Python dict whose
  keys are unique);
* `None`-able arguments are `Option _`;
* methods that mutate `self` become functions `InputSample → InputSample`;
* code that raises returns `Except String _`; diagnostics printed to
  stdout become explicit `Bool` fields of the result.

The external tokenizer is a collaborator outside the repository, so it is
passed in as an explicit function argument `tokenizeF` wherever the source
calls `tokenize`.
-/

/-- Translation dictionary `SPACY_PRESIDIO_ENTITIES`
(data_objects.py, lines 11-20). -/
def SPACY_PRESIDIO_ENTITIES : List (String × String) :=
  [("ORG", "ORGANIZATION"),
   ("NORP", "ORGANIZATION"),
   ("GPE", "LOCATION"),
   ("LOC", "LOCATION"),
   ("FAC", "LOCATION"),
   ("PERSON", "PERSON"),
   ("LOCATION", "LOCATION"),
   ("ORGANIZATION", "ORGANIZATION")]

/-- Translation dictionary `PRESIDIO_SPACY_ENTITIES`
(data_objects.py, lines 21-35). -/
def PRESIDIO_SPACY_ENTITIES : List (String × String) :=
  [("ORGANIZATION", "ORG"),
   ("COUNTRY", "GPE"),
   ("CITY", "GPE"),
   ("LOCATION", "GPE"),
   ("PERSON", "PERSON"),
   ("FIRST_NAME", "PERSON"),
   ("LAST_NAME", "PERSON"),
   ("NATION_MAN", "GPE"),
   ("NATION_WOMAN", "GPE"),
   ("NATION_PLURAL", "GPE"),
   ("NATIONALITY", "GPE"),
   ("GPE", "GPE"),
   ("ORG", "ORG")]

/-- Embeds `class Span` (data_objects.py, lines 38-48): start, end, type and
value of an entity occurrence in a text. -/
structure Span where
  entity_type : String
  entity_value : String
  start_position : Int
  end_position : Int
deriving Repr, DecidableEq

/-- Embeds `Span.intersect` (data_objects.py, lines 50-72): number of
intersecting characters between two spans, or 0. -/
def Span.intersect (self other : Span) (ignore_entity_type : Bool) : Int :=
  -- if they do not overlap the intersection is 0
  if self.end_position < other.start_position
      ∨ other.end_position < self.start_position then 0
  -- if we are accounting for entity type a diff type means intersection 0
  else if ignore_entity_type = false ∧ self.entity_type ≠ other.entity_type then 0
  -- otherwise the intersection is min(end) - max(start)
  else min self.end_position other.end_position
       - max self.start_position other.start_position

/-- Embeds `Span.from_json` (data_objects.py, lines 104-106): `cls(**data)`; the
serialized form of a span is exactly its four fields, so the record type is
`Span` itself and deserialization rebuilds the structure field by field. -/
def Span.from_json (data : Span) : Span :=
  { entity_type := data.entity_type,
    entity_value := data.entity_value,
    start_position := data.start_position,
    end_position := data.end_position }

/-- Embeds `class SimpleToken` (data_objects.py, lines 122-150): a serializable
token with text, character offset and linguistic annotations. The
`SimpleSpacyExtensions` attribute bag is a mapping from extension name to
value. -/
structure SimpleToken where
  text : String
  idx : Int
  tag_ : Option String := none
  pos_ : Option String := none
  dep_ : Option String := none
  lemma_ : Option String := none
  spacy_extensions : List (String × String) := []
deriving Repr, DecidableEq

/-- The dictionary produced by `SimpleToken.to_dict`
(data_objects.py, lines 181-190): keys text, idx, tag_, pos_, dep_,
lemma_ and the extensions bag under key underscore. -/
structure TokenRecord where
  text : String
  idx : Int
  tag_ : Option String
  pos_ : Option String
  dep_ : Option String
  lemma_ : Option String
  ext : List (String × String)
deriving Repr, DecidableEq

/-- Embeds `SimpleToken.from_spacy_token` (data_objects.py, lines 152-179) on an
argument that is already a `SimpleToken`: returned unchanged (the spacy
`Token` branch concerns the external toolkit's objects). -/
def SimpleToken.from_spacy_token (token : SimpleToken) : SimpleToken :=
  token

/-- Embeds `SimpleToken.to_dict` (data_objects.py, lines 181-190). -/
def SimpleToken.to_dict (t : SimpleToken) : TokenRecord :=
  { text := t.text, idx := t.idx, tag_ := t.tag_, pos_ := t.pos_,
    dep_ := t.dep_, lemma_ := t.lemma_, ext := t.spacy_extensions }

/-- Embeds `SimpleToken.from_json` (data_objects.py, lines 195-200): the
extensions recorded under the underscore key become the token's
`SimpleSpacyExtensions`; the remaining keys feed the constructor. -/
def SimpleToken.from_json (data : TokenRecord) : SimpleToken :=
  { text := data.text, idx := data.idx, tag_ := data.tag_,
    pos_ := data.pos_, dep_ := data.dep_, lemma_ := data.lemma_,
    spacy_extensions := data.ext }

/-- State of a `class InputSample` object (data_objects.py, line 203):
full text, masked text, spans, metadata, template id, tokens and tags. -/
structure InputSample where
  full_text : String
  masked : Option String
  spans : List Span
  metadata : Option (List (String × String))
  template_id : Option String
  tokens : List SimpleToken
  tags : List String
deriving Repr, DecidableEq

/-- Python truthiness of the optional `template_id` argument: `None` and
the empty string are falsy. -/
def pyFalsyTid : Option String → Bool
  | none => true
  | some s => s == ""

/-- Python truthiness of the optional `metadata` dictionary: `None` and
the empty dict are falsy. -/
def pyTruthyMeta : Option (List (String × String)) → Bool
  | none => false
  | some l => ¬ (l = [])

/-- Modelled from the spec: the Tag Alignment Engine's covering policy.
`span_to_tag` itself lives in a module of this repository that is not
under src/ (only its caller `InputSample.get_tags` is), so it is modelled
from spec section 4.2: a token belongs to the first span whose half-open
character range contains the token's start offset. Returns the index of
that span among the parallel `starts`/`ends` lists. -/
def coveringIdx (starts ends : List Int) (pos : Int) : Option Nat :=
  (List.range starts.length).find? (fun i =>
    match starts.get? i, ends.get? i with
    | some s, some e => decide (s ≤ pos ∧ pos < e)
    | _, _ => false)

/-- Modelled from the spec: per-token tag assembly of the Tag Alignment
Engine (spec section 4.2, steps 2-4). Under IO the covered token gets the
bare type; under BIO/IOB the first token of a run gets B- and the rest I-;
under BILOU/BILUO a run of length 1 gets U-, the last token of a longer
run gets L-. -/
def tagFor (scheme : String) (typ : String) (isFirst isLast : Bool) : String :=
  if scheme = "IO" then typ
  else if scheme = "BIO" ∨ scheme = "IOB" then
    (if isFirst then "B-" ++ typ else "I-" ++ typ)
  else
    if isFirst ∧ isLast then "U-" ++ typ
    else if isFirst then "B-" ++ typ
    else if isLast then "L-" ++ typ
    else "I-" ++ typ

/-- Modelled from the spec: `span_to_tag` (imported by data_objects.py
from a module of this repository missing from src/), spec section 4.2:
given the text, parallel lists of span types, starts and ends, and the
token sequence, produce one tag per token; uncovered tokens get the
sentinel tag, runs are delimited by span identity. -/
def span_to_tag (scheme : String) (text : String) (tag : List String)
    (starts ends : List Int) (tokens : List SimpleToken) : List String :=
  let cover := fun (j : Nat) => match tokens.get? j with
    | some t => coveringIdx starts ends t.idx
    | none => none
  (List.range tokens.length).map (fun j =>
    match cover j with
    | none => "O"
    | some i =>
      let typ := (tag.get? i).getD "O"
      let isFirst := decide (j = 0 ∨ cover (j - 1) ≠ some i)
      let isLast := decide (cover (j + 1) ≠ some i)
      tagFor scheme typ isFirst isLast)

/-- Embeds `InputSample.get_tags` (data_objects.py, lines 282-297): tokenizes the
full text with the external tokenizer and aligns the spans to tags. The
tokenizer is the explicit argument `tokenizeF`. -/
def InputSample.get_tags_of (tokenizeF : String → List SimpleToken)
    (full_text : String) (spans : List Span) (scheme : String) :
    List SimpleToken × List String :=
  let start_indices := spans.map (fun span => span.start_position)
  let end_indices := spans.map (fun span => span.end_position)
  let tags := spans.map (fun span => span.entity_type)
  let tokens := tokenizeF full_text
  let labels := span_to_tag scheme full_text tags start_indices end_indices tokens
  (tokens, labels)

/-- Embeds `InputSample.__init__` (data_objects.py, lines 204-250): stores the
fields; takes `template_id` from `metadata` under key `Template#` when the
`template_id` argument is falsy and `metadata` is truthy; derives tokens
and tags from the spans when `create_tags_from_span` is true, otherwise
stores the supplied (defaulting to empty) tokens and tags verbatim. -/
def InputSample_init (tokenizeF : String → List SimpleToken)
    (full_text : String) (spans : Option (List Span)) (masked : Option String)
    (tokens : Option (List SimpleToken)) (tags : Option (List String))
    (create_tags_from_span : Bool) (scheme : String)
    (metadata : Option (List (String × String)))
    (template_id : Option String) : InputSample :=
  let tags0 := tags.getD []
  let tokens0 := tokens.getD []
  let spans0 := spans.getD []
  -- generated samples have a template from which they were generated
  let tid := if pyFalsyTid template_id ∧ pyTruthyMeta metadata then
               (metadata.getD []).lookup "Template#"
             else template_id
  let tt := if create_tags_from_span then
              InputSample.get_tags_of tokenizeF full_text spans0 scheme
            else (tokens0, tags0)
  { full_text := full_text, masked := masked, spans := spans0,
    metadata := metadata, template_id := tid,
    tokens := tt.1, tags := tt.2 }

/-- The persisted record consumed by `InputSample.from_json` and produced
by `InputSample.to_dict` (data_objects.py, lines 260-280): a mapping with
keys full_text, masked, spans, tokens, tags, template_id, metadata. -/
structure SampleRecord where
  full_text : String
  masked : Option String
  spans : List Span
  tokens : List TokenRecord
  tags : List String
  template_id : Option String
  metadata : Option (List (String × String))
deriving Repr, DecidableEq

/-- Embeds `InputSample.to_dict` (data_objects.py, lines 260-272). -/
def InputSample.to_dict (s : InputSample) : SampleRecord :=
  { full_text := s.full_text,
    masked := s.masked,
    spans := s.spans,
    tokens := s.tokens.map
      (fun token => (SimpleToken.from_spacy_token token).to_dict),
    tags := s.tags,
    template_id := s.template_id,
    metadata := s.metadata }

/-- Embeds `InputSample.from_json` (data_objects.py, lines 274-280): rebuilds
spans and tokens from their serialized form and calls the constructor
with `create_tags_from_span=False`. -/
def InputSample.from_json (tokenizeF : String → List SimpleToken)
    (data : SampleRecord) : InputSample :=
  InputSample_init tokenizeF data.full_text
    (some (data.spans.map Span.from_json)) data.masked
    (some (data.tokens.map SimpleToken.from_json)) (some data.tags)
    false "IO" data.metadata data.template_id

/-- Embeds `InputSample.translate_tag` (data_objects.py, lines 477-488).
Python string indexing is per code point: `tag[1]` is
`tag.data.get? 1`, `tag[2:]` drops two characters, `tag[:2]` keeps two. -/
def InputSample.translate_tag (tag : String)
    (dictionary : List (String × String)) (ignore_unknown : Bool) : String :=
  let hasP := decide (tag.length > 2) && (tag.data.get? 1 == some '-')
  let noP := if hasP then String.mk (tag.data.drop 2) else tag
  match dictionary.lookup noP with
  | some v => if hasP then String.mk (tag.data.take 2 ++ v.data) else v
  | none => if ignore_unknown then "O" else tag

/-- Embeds `InputSample.translate_tags` (data_objects.py, lines 463-475): maps
`translate_tag` over the sequence. -/
def InputSample.translate_tags (tags : List String)
    (dictionary : List (String × String)) (ignore_unknown : Bool) :
    List String :=
  tags.map (fun tag => InputSample.translate_tag tag dictionary ignore_unknown)

/-- Loop body of `InputSample.bilou_to_bio` (data_objects.py, lines
492-500): one tag's rewrite. `"B" + tag[1:]` prepends the character B to
the tag without its first character. -/
def bilouToBioTag (tag : String) : String :=
  let hasP := decide (tag.length > 2) && (tag.data.get? 1 == some '-')
  if hasP then
    if tag.data.get? 0 == some 'U' then String.mk ('B' :: tag.data.drop 1)
    else if tag.data.get? 0 == some 'L' then String.mk ('I' :: tag.data.drop 1)
    else tag
  else tag

/-- Embeds `InputSample.bilou_to_bio` (data_objects.py, lines 490-502): rebuilds
`self.tags` with each tag rewritten; no other field is assigned. -/
def InputSample.bilouToBio (s : InputSample) : InputSample :=
  { s with tags := s.tags.map bilouToBioTag }

/-- Embeds `InputSample.translate_input_sample_tags` (data_objects.py, lines
525-535): the tags are translated through the supplied dictionary
(defaulting to `PRESIDIO_SPACY_ENTITIES`), and each span's
`entity_value` — not its type — is looked up in the hard-coded
`PRESIDIO_SPACY_ENTITIES`, falling back to the sentinel when
`ignore_unknown` is set. -/
def InputSample.translate_input_sample_tags (s : InputSample)
    (dictionary : Option (List (String × String)))
    (ignore_unknown : Bool) : InputSample :=
  let dict := dictionary.getD PRESIDIO_SPACY_ENTITIES
  let newTags := InputSample.translate_tags s.tags dict ignore_unknown
  let newSpans := s.spans.map (fun span =>
    match PRESIDIO_SPACY_ENTITIES.lookup span.entity_value with
    | some v => { span with entity_value := v }
    | none => if ignore_unknown then { span with entity_value := "O" }
              else span)
  { s with tags := newTags, spans := newSpans }

/-- The scheme validation at the top of `InputSample.from_spacy_doc`
(data_objects.py, lines 358-360): the `ValueError` is raised before any
processing of the external spacy document, so the check depends only on
the scheme string. -/
def from_spacy_doc_scheme_ok (scheme : String) : Except String Unit :=
  if ¬ (scheme = "BILUO" ∨ scheme = "BILOU" ∨ scheme = "BIO" ∨ scheme = "IOB")
  then Except.error "scheme should be one of BILUO, BILOU, BIO, IOB"
  else Except.ok ()

/-- A loaded spacy pipeline (external collaborator): applied to a text it
yields a re-tokenized document; each document token carries its entity
type (`ent_type_`, empty string when uncovered). -/
structure SpacyLang where
  pipe : String → List String

/-- State of a `SpacyModel` (models/spacy_model.py, lines 10-39). -/
structure SpacyModelS where
  model : SpacyLang
  entities_to_keep : Option (List String)
  verbose : Bool
  labeling_scheme : String
  translate_to_spacy_entities : Bool

/-- Embeds `SpacyModel.__init__` (models/spacy_model.py, lines 11-39): raises
`ValueError` when neither a model object nor a model name is supplied;
otherwise loads the named model with the external loader `load` (standing
for `spacy.load`) or keeps the given object. -/
def SpacyModel_init (load : String → SpacyLang)
    (model : Option SpacyLang) (model_name : Option String)
    (entities_to_keep : Option (List String)) (verbose : Bool)
    (labeling_scheme : String) (translate_to_spacy_entities : Bool) :
    Except String SpacyModelS :=
  match model with
  | none =>
    match model_name with
    | none => Except.error "Either model_name or model object must be supplied"
    | some n =>
      Except.ok { model := load n, entities_to_keep := entities_to_keep,
                  verbose := verbose, labeling_scheme := labeling_scheme,
                  translate_to_spacy_entities := translate_to_spacy_entities }
  | some m =>
    Except.ok { model := m, entities_to_keep := entities_to_keep,
                verbose := verbose, labeling_scheme := labeling_scheme,
                translate_to_spacy_entities := translate_to_spacy_entities }

/-- Embeds `SpacyModel.get_tags_from_doc` (models/spacy_model.py, lines 52-54):
one tag per document token, the sentinel for an empty entity type. -/
def get_tags_from_doc (doc : List String) : List String :=
  doc.map (fun t => if ¬ (t = "") then t else "O")

/-- Result of `SpacyModel.predict`: the (possibly tag-translated) sample,
the returned tag list, and whether the token-count-mismatch diagnostic
was printed. Totality of this function models that predict never
raises on a mismatch. -/
structure PredictResult where
  sample : InputSample
  tags : List String
  mismatch_diagnostic : Bool

/-- Embeds `SpacyModel.predict` (models/spacy_model.py, lines 41-49): translates
the sample's tags in place when configured to, re-tokenizes the full text
with the model, emits a diagnostic (not an exception) when the new token
count differs from the sample's, and returns one tag per new token. -/
def SpacyModel_predict (m : SpacyModelS) (sample : InputSample) :
    PredictResult :=
  let sample := if m.translate_to_spacy_entities then
                  sample.translate_input_sample_tags none true
                else sample
  let doc := m.model.pipe sample.full_text
  let tags := get_tags_from_doc doc
  let mismatch := decide (¬ (doc.length = sample.tokens.length))
  { sample := sample, tags := tags, mismatch_diagnostic := mismatch }

/-! ## Theorems -/

/-- C1: for all spans `a`, `b` with `start_position ≤ end_position`,
`Span.intersect a b ignore_entity_type` returns 0 whenever the half-open
intervals are disjoint (touching included), returns 0 whenever
`ignore_entity_type` is false and the entity types differ, and otherwise
returns `min(end) - max(start)`, which is strictly positive for
overlapping ranges when `ignore_entity_type` is true; the result is never
negative. The embedding is a pure function, so the call has no side
effects. -/
theorem C1_span_intersect_correct (a b : Span) (ig : Bool)
    (ha : a.start_position ≤ a.end_position)
    (hb : b.start_position ≤ b.end_position) :
    ((a.end_position ≤ b.start_position ∨ b.end_position ≤ a.start_position) →
      Span.intersect a b ig = 0)
    ∧ (ig = false → a.entity_type ≠ b.entity_type → Span.intersect a b ig = 0)
    ∧ (¬ (a.end_position ≤ b.start_position ∨ b.end_position ≤ a.start_position) →
        (ig = true ∨ a.entity_type = b.entity_type) →
        Span.intersect a b ig =
          min a.end_position b.end_position - max a.start_position b.start_position)
    ∧ (ig = true →
        max a.start_position b.start_position < min a.end_position b.end_position →
        0 < Span.intersect a b ig)
    ∧ 0 ≤ Span.intersect a b ig := by
  unfold Span.intersect
  split_ifs with h1 h2
  · exact ⟨fun _ => rfl, fun _ _ => rfl,
      fun hnd _ => absurd h1 (by omega),
      fun _ hov => absurd h1 (by omega),
      le_refl 0⟩
  · refine ⟨fun _ => rfl, fun _ _ => rfl, fun _ hor => ?_, fun hig _ => ?_, le_refl 0⟩
    · rcases hor with hig | hty
      · rw [hig] at h2; exact absurd h2.1 (by simp)
      · exact absurd hty h2.2
    · rw [hig] at h2; exact absurd h2.1 (by simp)
  · refine ⟨fun hd => ?_, fun hig hne => absurd ⟨hig, hne⟩ h2, fun _ _ => rfl,
      fun _ hov => ?_, ?_⟩
    · omega
    · omega
    · omega

/-- Witness for C1 at a concrete pair of overlapping spans. -/
theorem C1_span_intersect_correct_witness :
    ((0 : Int) ≤ 5 ∧ (3 : Int) ≤ 7) ∧
    (¬ ((5 : Int) ≤ 3 ∨ (7 : Int) ≤ 0) →
      (true = true ∨ "A" = "A") →
      Span.intersect ⟨"A", "x", 0, 5⟩ ⟨"A", "y", 3, 7⟩ true =
        min (5 : Int) 7 - max (0 : Int) 3) ∧
    0 ≤ Span.intersect ⟨"A", "x", 0, 5⟩ ⟨"A", "y", 3, 7⟩ true :=
  ⟨⟨by decide, by decide⟩,
   (C1_span_intersect_correct ⟨"A", "x", 0, 5⟩ ⟨"A", "y", 3, 7⟩ true
      (by decide) (by decide)).2.2.1,
   (C1_span_intersect_correct ⟨"A", "x", 0, 5⟩ ⟨"A", "y", 3, 7⟩ true
      (by decide) (by decide)).2.2.2.2⟩

/-- C2: `translate_tag` treats a tag as prefixed exactly when its length
exceeds 2 and its second character is a dash; the suffix (tag minus the
two-character run-position marker, or the whole tag) is looked up in the
dictionary; on a hit the result is the marker concatenated with the new
type (bare new type when unprefixed); on a miss the result is the
sentinel when `ignore_unknown` is true and the tag unchanged otherwise;
in particular the two concrete examples of the spec hold. -/
theorem C2_translate_tag_correct (tag : String) (D : List (String × String))
    (iu : Bool) :
    (∀ v, tag.length > 2 → tag.data.get? 1 = some '-' →
       D.lookup (String.mk (tag.data.drop 2)) = some v →
       InputSample.translate_tag tag D iu = String.mk (tag.data.take 2 ++ v.data))
    ∧ (∀ v, ¬ (tag.length > 2 ∧ tag.data.get? 1 = some '-') →
       D.lookup tag = some v →
       InputSample.translate_tag tag D iu = v)
    ∧ (tag.length > 2 → tag.data.get? 1 = some '-' →
       D.lookup (String.mk (tag.data.drop 2)) = none →
       InputSample.translate_tag tag D iu = (if iu then "O" else tag))
    ∧ (¬ (tag.length > 2 ∧ tag.data.get? 1 = some '-') →
       D.lookup tag = none →
       InputSample.translate_tag tag D iu = (if iu then "O" else tag))
    ∧ InputSample.translate_tag "B-FOO" [("FOO", "BAR")] false = "B-BAR"
    ∧ InputSample.translate_tag "FOO" [("FOO", "BAR")] false = "BAR" := by
  refine ⟨?_, ?_, ?_, ?_, by decide, by decide⟩
  · intro v h1 h2 hl
    rw [List.get?_eq_getElem?] at h2
    simp [InputSample.translate_tag, h1, h2, hl]
  · intro v hnp hl
    simp only [List.get?_eq_getElem?, gt_iff_lt] at hnp
    simp [InputSample.translate_tag, hnp, hl]
  · intro h1 h2 hl
    rw [List.get?_eq_getElem?] at h2
    simp [InputSample.translate_tag, h1, h2, hl]
  · intro hnp hl
    simp only [List.get?_eq_getElem?, gt_iff_lt] at hnp
    simp [InputSample.translate_tag, hnp, hl]

/-- Witness for C2 at the prefixed tag B-FOO. -/
theorem C2_translate_tag_correct_witness :
    (("B-FOO" : String).length > 2
     ∧ ("B-FOO" : String).data.get? 1 = some '-'
     ∧ [("FOO", "BAR")].lookup (String.mk (("B-FOO" : String).data.drop 2))
         = some "BAR")
    ∧ InputSample.translate_tag "B-FOO" [("FOO", "BAR")] false
        = String.mk (("B-FOO" : String).data.take 2 ++ ("BAR" : String).data) :=
  ⟨⟨by decide, by decide, by decide⟩,
   (C2_translate_tag_correct "B-FOO" [("FOO", "BAR")] false).1 "BAR"
     (by decide) (by decide) (by decide)⟩

/-- C3 counterexample: the sentinel tag CAN be remapped — when the
dictionary itself has the sentinel as a key, `translate_tag` returns the
dictionary's value for it, not the sentinel. -/
theorem C3_counterexample :
    ¬ (InputSample.translate_tag "O" [("O", "X")] true = "O") := by decide

/-- C3 (amended): for every dictionary `D` that does not have the
sentinel tag as a key, `translate_tag "O" D true` returns the sentinel
unchanged. -/
theorem C3_sentinel_not_remapped (D : List (String × String))
    (h : D.lookup "O" = none) :
    InputSample.translate_tag "O" D true = "O" := by
  simp [InputSample.translate_tag, h]

/-- Witness for amended C3 at a concrete dictionary without the sentinel
key. -/
theorem C3_sentinel_not_remapped_witness :
    ([("FOO", "BAR")] : List (String × String)).lookup "O" = none
    ∧ InputSample.translate_tag "O" [("FOO", "BAR")] true = "O" :=
  ⟨by decide, C3_sentinel_not_remapped [("FOO", "BAR")] (by decide)⟩

/-- Per-tag characterization of the bilou-to-bio rewrite: a tag of shape
U-TYPE becomes B-TYPE, a tag of shape L-TYPE becomes I-TYPE, and any
other tag is unchanged. -/
theorem bilouToBioTag_cases (t : String) :
    (∀ c cs, t.data = 'U' :: '-' :: c :: cs →
       bilouToBioTag t = String.mk ('B' :: '-' :: c :: cs))
    ∧ (∀ c cs, t.data = 'L' :: '-' :: c :: cs →
       bilouToBioTag t = String.mk ('I' :: '-' :: c :: cs))
    ∧ ((∀ c cs, t.data ≠ 'U' :: '-' :: c :: cs) →
       (∀ c cs, t.data ≠ 'L' :: '-' :: c :: cs) →
       bilouToBioTag t = t) := by
  obtain ⟨l⟩ := t
  refine ⟨?_, ?_, ?_⟩
  · rintro c cs h
    simp only at h
    subst h
    simp [bilouToBioTag, String.length]
  · rintro c cs h
    simp only at h
    subst h
    simp [bilouToBioTag, String.length]
  · intro hU hL
    match l with
    | [] => simp [bilouToBioTag]
    | [a] => simp [bilouToBioTag, String.length]
    | [a, b] => simp [bilouToBioTag, String.length]
    | a :: b :: c :: cs =>
      by_cases hb : b = '-'
      · subst hb
        have haU : a ≠ 'U' := fun h => hU c cs (by simp [h])
        have haL : a ≠ 'L' := fun h => hL c cs (by simp [h])
        simp [bilouToBioTag, String.length, haU, haL]
      · simp [bilouToBioTag, String.length, hb]

/-- C4: `bilou_to_bio` replaces each tag of X-TYPE shape whose first
character is U by B plus the rest of the tag, and whose first character
is L by I plus the rest; every other tag is left unchanged; the tags list
keeps its length and order and the sample's spans, tokens, full text,
masked text, metadata and template id are not modified. -/
theorem C4_bilou_to_bio_rewrite (s : InputSample) :
    (InputSample.bilouToBio s).tags.length = s.tags.length
    ∧ (∀ i c cs, s.tags.get? i = some (String.mk ('U' :: '-' :: c :: cs)) →
        (InputSample.bilouToBio s).tags.get? i
          = some (String.mk ('B' :: '-' :: c :: cs)))
    ∧ (∀ i c cs, s.tags.get? i = some (String.mk ('L' :: '-' :: c :: cs)) →
        (InputSample.bilouToBio s).tags.get? i
          = some (String.mk ('I' :: '-' :: c :: cs)))
    ∧ (∀ i t, s.tags.get? i = some t →
        (∀ c cs, t.data ≠ 'U' :: '-' :: c :: cs) →
        (∀ c cs, t.data ≠ 'L' :: '-' :: c :: cs) →
        (InputSample.bilouToBio s).tags.get? i = some t)
    ∧ (InputSample.bilouToBio s).spans = s.spans
    ∧ (InputSample.bilouToBio s).tokens = s.tokens
    ∧ (InputSample.bilouToBio s).full_text = s.full_text
    ∧ (InputSample.bilouToBio s).masked = s.masked
    ∧ (InputSample.bilouToBio s).metadata = s.metadata
    ∧ (InputSample.bilouToBio s).template_id = s.template_id := by
  refine ⟨by simp [InputSample.bilouToBio], ?_, ?_, ?_, rfl, rfl, rfl, rfl, rfl, rfl⟩
  · intro i c cs h
    simp only [InputSample.bilouToBio, List.get?_map, h, Option.map]
    rw [(bilouToBioTag_cases _).1 c cs rfl]
  · intro i c cs h
    simp only [InputSample.bilouToBio, List.get?_map, h, Option.map]
    rw [(bilouToBioTag_cases _).2.1 c cs rfl]
  · intro i t h hU hL
    simp only [InputSample.bilouToBio, List.get?_map, h, Option.map]
    rw [(bilouToBioTag_cases t).2.2 hU hL]

/-- Witness for C4 at a concrete sample carrying one U-tag. -/
theorem C4_bilou_to_bio_rewrite_witness :
    ([("U-LOC" : String)].get? 0 = some (String.mk ('U' :: '-' :: 'L' :: ['O', 'C'])))
    ∧ (InputSample.bilouToBio
        { full_text := "x", masked := none, spans := [], metadata := none,
          template_id := none, tokens := [], tags := ["U-LOC"] }).tags.get? 0
        = some (String.mk ('B' :: '-' :: 'L' :: ['O', 'C'])) :=
  ⟨by decide,
   (C4_bilou_to_bio_rewrite
      { full_text := "x", masked := none, spans := [], metadata := none,
        template_id := none, tokens := [], tags := ["U-LOC"] }).2.1
     0 'L' ['O', 'C'] (by decide)⟩

/-- C5: the bilou-to-bio rewrite is idempotent — applying it twice to any
sample (hence to any list of tags) gives the same tags as applying it
once. -/
theorem C5_bilou_to_bio_idempotent (s : InputSample) :
    InputSample.bilouToBio (InputSample.bilouToBio s)
      = InputSample.bilouToBio s := by
  have one : ∀ t : String, bilouToBioTag (bilouToBioTag t) = bilouToBioTag t := by
    intro t
    by_cases hU : ∃ c cs, t.data = 'U' :: '-' :: c :: cs
    · obtain ⟨c, cs, h⟩ := hU
      rw [(bilouToBioTag_cases t).1 c cs h]
      exact (bilouToBioTag_cases _).2.2 (by simp) (by simp)
    · by_cases hL : ∃ c cs, t.data = 'L' :: '-' :: c :: cs
      · obtain ⟨c, cs, h⟩ := hL
        rw [(bilouToBioTag_cases t).2.1 c cs h]
        exact (bilouToBioTag_cases _).2.2 (by simp) (by simp)
      · push_neg at hU hL
        rw [(bilouToBioTag_cases t).2.2 hU hL, (bilouToBioTag_cases t).2.2 hU hL]
  simp only [InputSample.bilouToBio, List.map_map]
  congr 1
  exact List.map_congr_left (fun t _ => one t)

/-- Deserializing a span record rebuilds the same span. -/
theorem Span.from_json_id (x : Span) : Span.from_json x = x := rfl

/-- Serializing a deserialized token record gives back the record. -/
theorem token_record_round (r : TokenRecord) :
    (SimpleToken.from_json r).to_dict = r := rfl

/-- C6: `from_json` stores the record's tags and tokens verbatim (no
re-derivation through the tokenizer), and re-serializing with `to_dict`
reproduces the record's tags byte for byte, its spans structurally, and
every token's text and idx offset. -/
theorem C6_from_json_to_dict_round_trip (tokenizeF : String → List SimpleToken)
    (d : SampleRecord) :
    (InputSample.from_json tokenizeF d).tags = d.tags
    ∧ (InputSample.from_json tokenizeF d).tokens
        = d.tokens.map SimpleToken.from_json
    ∧ (InputSample.from_json tokenizeF d).to_dict.tags = d.tags
    ∧ (InputSample.from_json tokenizeF d).to_dict.spans = d.spans
    ∧ (InputSample.from_json tokenizeF d).to_dict.tokens.map
        (fun r => (r.text, r.idx))
        = d.tokens.map (fun r => (r.text, r.idx))
    ∧ (InputSample.from_json tokenizeF d).to_dict.full_text = d.full_text
    ∧ (InputSample.from_json tokenizeF d).to_dict.masked = d.masked := by
  refine ⟨rfl, rfl, rfl, ?_, ?_, rfl, rfl⟩
  · show (d.spans.map Span.from_json) = d.spans
    exact List.map_id' d.spans
  · show ((d.tokens.map SimpleToken.from_json).map
      (fun token => (SimpleToken.from_spacy_token token).to_dict)).map
        (fun r => (r.text, r.idx)) = _
    rw [List.map_map, List.map_map]
    rfl

/-- The spec-modelled alignment engine emits exactly one tag per token. -/
theorem span_to_tag_length (scheme text : String) (tag : List String)
    (starts ends : List Int) (tokens : List SimpleToken) :
    (span_to_tag scheme text tag starts ends tokens).length = tokens.length := by
  simp [span_to_tag]

/-- C7 counterexample: the constructor does not enforce the lock-step
invariant on the verbatim path — deserializing a record with one tag and
no tokens yields a sample with `tags.length ≠ tokens.length`. -/
theorem C7_counterexample :
    ¬ ((InputSample.from_json (fun _ => [])
          { full_text := "hi", masked := none, spans := [], tokens := [],
            tags := ["O"], template_id := none, metadata := none }).tags.length
        = (InputSample.from_json (fun _ => [])
            { full_text := "hi", masked := none, spans := [], tokens := [],
              tags := ["O"], template_id := none,
              metadata := none }).tokens.length) := by
  decide

/-- C7 (amended): `len(tags) == len(tokens)` holds after construction
when tags are derived from the spans; when tokens and tags are supplied
verbatim from a persisted record the constructor stores them unchanged,
so the invariant holds exactly when the record itself satisfies it; and
the invariant is preserved by both tag-mutating operations
(`bilou_to_bio` and `translate_input_sample_tags`). -/
theorem C7_tags_tokens_lockstep :
    (∀ tokenizeF full_text spans masked tokens tags scheme metadata tid,
       (InputSample_init tokenizeF full_text spans masked tokens tags true
          scheme metadata tid).tags.length
         = (InputSample_init tokenizeF full_text spans masked tokens tags true
             scheme metadata tid).tokens.length)
    ∧ (∀ tokenizeF d,
        (InputSample.from_json tokenizeF d).tags.length = d.tags.length
        ∧ (InputSample.from_json tokenizeF d).tokens.length = d.tokens.length)
    ∧ (∀ s : InputSample, s.tags.length = s.tokens.length →
        (InputSample.bilouToBio s).tags.length
          = (InputSample.bilouToBio s).tokens.length)
    ∧ (∀ s dictionary ignore_unknown, s.tags.length = s.tokens.length →
        (InputSample.translate_input_sample_tags s dictionary
           ignore_unknown).tags.length
          = (InputSample.translate_input_sample_tags s dictionary
              ignore_unknown).tokens.length) := by
  refine ⟨?_, ?_, ?_, ?_⟩
  · intro tokenizeF full_text spans masked tokens tags scheme metadata tid
    simp [InputSample_init, InputSample.get_tags_of, span_to_tag_length]
  · intro tokenizeF d
    exact ⟨rfl, by simp [InputSample.from_json, InputSample_init]⟩
  · intro s h
    simpa [InputSample.bilouToBio] using h
  · intro s dictionary ignore_unknown h
    simpa [InputSample.translate_input_sample_tags,
      InputSample.translate_tags] using h

/-- Witness for amended C7: the preservation parts applied to a concrete
sample satisfying the invariant. -/
theorem C7_tags_tokens_lockstep_witness :
    (({ full_text := "hi", masked := none, spans := [], metadata := none,
        template_id := none, tokens := [{ text := "hi", idx := 0 }],
        tags := ["O"] } : InputSample).tags.length
      = ({ full_text := "hi", masked := none, spans := [], metadata := none,
           template_id := none, tokens := [{ text := "hi", idx := 0 }],
           tags := ["O"] } : InputSample).tokens.length)
    ∧ (InputSample.bilouToBio
         { full_text := "hi", masked := none, spans := [], metadata := none,
           template_id := none, tokens := [{ text := "hi", idx := 0 }],
           tags := ["O"] }).tags.length
        = (InputSample.bilouToBio
            { full_text := "hi", masked := none, spans := [], metadata := none,
              template_id := none, tokens := [{ text := "hi", idx := 0 }],
              tags := ["O"] }).tokens.length :=
  ⟨by decide,
   C7_tags_tokens_lockstep.2.2.1
     { full_text := "hi", masked := none, spans := [], metadata := none,
       template_id := none, tokens := [{ text := "hi", idx := 0 }],
       tags := ["O"] } (by decide)⟩

/-- C8: the code at the failing input. With dictionary
`{"PERSON": "PER"}` and `ignore_unknown=True` on a sample holding the
span (PERSON, David, 0, 5) and tag B-PERSON, `translate_input_sample_tags`
translates the tags through the supplied dictionary as claimed, but the
span keeps its entity type PERSON (the claim says it becomes PER) and
instead has its free-text entity value David destroyed to the sentinel,
because the source looks the value — not the type — up in the hard-coded
`PRESIDIO_SPACY_ENTITIES` rather than the supplied dictionary. -/
theorem C8_span_value_overwritten :
    (InputSample.translate_input_sample_tags
       { full_text := "David", masked := none,
         spans := [⟨"PERSON", "David", 0, 5⟩], metadata := none,
         template_id := none, tokens := [], tags := ["B-PERSON"] }
       (some [("PERSON", "PER")]) true).tags = ["B-PER"]
    ∧ (InputSample.translate_input_sample_tags
        { full_text := "David", masked := none,
          spans := [⟨"PERSON", "David", 0, 5⟩], metadata := none,
          template_id := none, tokens := [], tags := ["B-PERSON"] }
        (some [("PERSON", "PER")]) true).spans
      = [⟨"PERSON", "O", 0, 5⟩] := by
  decide

/-- C9: configuration misuse raises immediately while data-quality issues
never raise — `from_spacy_doc` rejects every scheme outside the four
accepted names, constructing a spacy model with neither a model object
nor a model name is an error, and a token-count mismatch during `predict`
only sets the diagnostic while one tag per re-tokenized token is still
returned (the embedding of `predict` is a total function: no error
outcome exists). -/
theorem C9_error_taxonomy :
    (∀ scheme, scheme ≠ "BILUO" → scheme ≠ "BILOU" → scheme ≠ "BIO" →
       scheme ≠ "IOB" →
       from_spacy_doc_scheme_ok scheme
         = Except.error "scheme should be one of BILUO, BILOU, BIO, IOB")
    ∧ (∀ load entities_to_keep verbose labeling_scheme translate,
        SpacyModel_init load none none entities_to_keep verbose
            labeling_scheme translate
          = Except.error "Either model_name or model object must be supplied")
    ∧ (∀ m sample,
        (SpacyModel_predict m sample).tags.length
          = (m.model.pipe (SpacyModel_predict m sample).sample.full_text).length
        ∧ ((SpacyModel_predict m sample).mismatch_diagnostic = true
            ↔ (m.model.pipe
                 (SpacyModel_predict m sample).sample.full_text).length
               ≠ (SpacyModel_predict m sample).sample.tokens.length)) := by
  refine ⟨?_, ?_, ?_⟩
  · intro scheme h1 h2 h3 h4
    simp [from_spacy_doc_scheme_ok, h1, h2, h3, h4]
  · intro load entities_to_keep verbose labeling_scheme translate
    rfl
  · intro m sample
    constructor
    · simp [SpacyModel_predict, get_tags_from_doc]
    · simp [SpacyModel_predict]

/-- Witness for C9: the scheme check rejects the concrete scheme IO. -/
theorem C9_error_taxonomy_witness :
    (("IO" : String) ≠ "BILUO" ∧ ("IO" : String) ≠ "BILOU"
      ∧ ("IO" : String) ≠ "BIO" ∧ ("IO" : String) ≠ "IOB")
    ∧ from_spacy_doc_scheme_ok "IO"
        = Except.error "scheme should be one of BILUO, BILOU, BIO, IOB" :=
  ⟨⟨by decide, by decide, by decide, by decide⟩,
   C9_error_taxonomy.1 "IO" (by decide) (by decide) (by decide) (by decide)⟩

/-- C10: when the `template_id` argument is falsy and a non-empty
metadata mapping is supplied, the constructed sample's template id is the
metadata's value under key `Template#` (none when absent); consequently a
record with a null template id whose metadata has that key re-serializes
with a different, non-null template id. -/
theorem C10_template_id_from_metadata :
    (∀ tokenizeF full_text spans masked tokens tags cts scheme meta tid,
       (tid = none ∨ tid = some "") → meta ≠ [] →
       (InputSample_init tokenizeF full_text spans masked tokens tags cts
          scheme (some meta) tid).template_id = meta.lookup "Template#")
    ∧ (∀ tokenizeF d meta v, d.template_id = none → d.metadata = some meta →
        meta.lookup "Template#" = some v →
        (InputSample.from_json tokenizeF d).to_dict.template_id = some v
        ∧ (InputSample.from_json tokenizeF d).to_dict.template_id
            ≠ d.template_id) := by
  constructor
  · intro tokenizeF full_text spans masked tokens tags cts scheme meta tid
    intro hfalsy hmeta
    have h1 : pyFalsyTid tid = true := by
      rcases hfalsy with h | h <;> simp [h, pyFalsyTid]
    have h2 : pyTruthyMeta (some meta) = true := by
      simp [pyTruthyMeta, hmeta]
    simp [InputSample_init, h1, h2]
  · intro tokenizeF d meta v htid hmeta hk
    have hne : meta ≠ [] := by
      intro h
      rw [h] at hk
      simp at hk
    have h2 : pyTruthyMeta (some meta) = true := by simp [pyTruthyMeta, hne]
    constructor
    · simp [InputSample.from_json, InputSample_init, InputSample.to_dict,
        htid, hmeta, h2, hk, pyFalsyTid]
    · simp [InputSample.from_json, InputSample_init, InputSample.to_dict,
        htid, hmeta, h2, hk, pyFalsyTid]

/-- Witness for C10 at a record with a null template id and metadata
holding a template number. -/
theorem C10_template_id_from_metadata_witness :
    (({ full_text := "hi", masked := none, spans := [], tokens := [],
        tags := [], template_id := none,
        metadata := some [("Template#", "7")] } : SampleRecord).template_id
       = none
     ∧ ({ full_text := "hi", masked := none, spans := [], tokens := [],
          tags := [], template_id := none,
          metadata := some [("Template#", "7")] } : SampleRecord).metadata
         = some [("Template#", "7")]
     ∧ ([("Template#", "7")] : List (String × String)).lookup "Template#"
         = some "7")
    ∧ (InputSample.from_json (fun _ => [])
        { full_text := "hi", masked := none, spans := [], tokens := [],
          tags := [], template_id := none,
          metadata := some [("Template#", "7")] }).to_dict.template_id
       = some "7" :=
  ⟨⟨rfl, rfl, by decide⟩,
   (C10_template_id_from_metadata.2 (fun _ => [])
      { full_text := "hi", masked := none, spans := [], tokens := [],
        tags := [], template_id := none,
        metadata := some [("Template#", "7")] }
      [("Template#", "7")] "7" rfl rfl (by decide)).1⟩
